import Mathlib

/-!
Shallow embedding of the statistics aggregation engine of the newCalo
repository (src/server/src/services/statistics.ts, class StatisticsService),
together with proofs about the claims of its specification.

Modelling conventions:
* JavaScript numbers are modelled as rationals (ℚ); nullable nutrient columns
  are modelled as `Option ℚ`, and the source guard `x || 0` becomes `orZero`.
* Timestamps (`upload_time`, `Date.getTime()`) are integers in milliseconds.
  `Date.getHours` / `Date.getMinutes` are modelled in UTC.
* `Math.round` is `jsRound` (round half toward positive infinity, which is the
  JavaScript semantics), `Math.floor` is `jsFloor`, `Math.ceil` is `jsCeil`.
* The database fetch is an external collaborator; the pure core receives the
  meal list as an argument.  The try/catch wrapper of `getNutritionStatistics`
  is modelled by an `Except String` result; since every operation in the body
  is total, the error branch is never taken.
-/

namespace NewCalo

/-- JavaScript `Math.round`: rounds half toward positive infinity. -/
def jsRound (q : ℚ) : ℤ := ⌊q + 1 / 2⌋

/-- JavaScript `Math.floor` on a rational. -/
def jsFloor (q : ℚ) : ℤ := ⌊q⌋

/-- JavaScript `Math.ceil` on a rational. -/
def jsCeil (q : ℚ) : ℤ := ⌈q⌉

/-- Milliseconds in one day (`1000 * 60 * 60 * 24`). -/
def msPerDay : ℤ := 86400000

/-- UTC model of `new Date(t).getHours()` for a timestamp in milliseconds. -/
def getHours (t : ℤ) : ℕ := ((Int.emod t msPerDay).ediv 3600000).toNat

/-- UTC model of `new Date(t).getMinutes()` for a timestamp in milliseconds. -/
def getMinutes (t : ℤ) : ℕ := ((Int.emod t 3600000).ediv 60000).toNat

/-- The source guard `meal.field || 0` on a nullable numeric column. -/
def orZero (x : Option ℚ) : ℚ := x.getD 0

/-- JavaScript `s.padStart(2, "0")`. -/
def padTwo (s : String) : String := if s.length < 2 then "0" ++ s else s

/-- Split a character list at every occurrence of `c` (the accumulator holds
the current field in reverse). -/
def splitAux (c : Char) : List Char → List Char → List (List Char)
  | [], acc => [acc.reverse]
  | x :: xs, acc =>
    if x = c then acc.reverse :: splitAux c xs [] else splitAux c xs (x :: acc)

/-- JavaScript `s.split(c)` for a one-character separator. -/
def jsSplit (s : String) (c : Char) : List String :=
  (splitAux c s.data []).map fun l => ⟨l⟩

def natOfChars : List Char → ℕ → ℕ
  | [], acc => acc
  | ch :: rest, acc => natOfChars rest (acc * 10 + (ch.toNat - 48))

/-- JavaScript `Number(s)` on the decimal-digit strings this service produces
(on anything else `Number` would give `NaN`; those inputs never occur here and
are mapped to 0). -/
def parseNum (s : String) : ℤ :=
  if s.data.all Char.isDigit && !s.data.isEmpty then (natOfChars s.data 0 : ℤ) else 0

/-- JavaScript `s.includes(sub)` (substring test). -/
def jsIncludes (s sub : String) : Bool := decide (List.IsInfix sub.data s.data)

/-- A meal row as read by the service (fields of the Prisma `meal` model that
the statistics code accesses). -/
structure Meal where
  upload_time : ℤ
  calories : Option ℚ := none
  protein_g : Option ℚ := none
  carbs_g : Option ℚ := none
  fats_g : Option ℚ := none
  fiber_g : Option ℚ := none
  sodium_mg : Option ℚ := none
  sugar_g : Option ℚ := none
  liquids_ml : Option ℚ := none
  alcohol_g : Option ℚ := none
  caffeine_mg : Option ℚ := none
  processing_level : String := ""
  food_category : Option String := none
  meal_name : Option String := none
  allergens_json : List String := []
  health_risk_notes : Option String := none
deriving DecidableEq

/-- Accumulator of the `meals.reduce` that sums the nutrient fields. -/
structure Totals where
  calories : ℚ
  protein : ℚ
  carbs : ℚ
  fats : ℚ
  fiber : ℚ
  sodium : ℚ
  sugar : ℚ
  fluids : ℚ
deriving DecidableEq

/-- The eating-window record; the source field `end` is a Lean keyword and is
named `endTime` here. -/
structure EatingHours where
  start : String
  endTime : String
deriving DecidableEq

structure WeeklyTrends where
  calories : List ℚ
  protein : List ℚ
  carbs : List ℚ
  fats : List ℚ
deriving DecidableEq

structure GeneralStats where
  averageCaloriesPerMeal : ℚ
  averageProteinPerMeal : ℚ
  mostCommonMealTime : String
  averageMealsPerDay : ℚ
deriving DecidableEq

structure HealthInsights where
  proteinAdequacy : String
  calorieDistribution : String
  fiberIntake : String
deriving DecidableEq

/-- The `NutritionStatistics` interface of the source. -/
structure NutritionStatistics where
  averageCaloriesDaily : ℚ
  calorieGoalAchievementPercent : ℚ
  averageProteinDaily : ℚ
  averageCarbsDaily : ℚ
  averageFatsDaily : ℚ
  averageFiberDaily : ℚ
  averageSodiumDaily : ℚ
  averageSugarDaily : ℚ
  averageFluidsDaily : ℚ
  processedFoodPercentage : ℚ
  alcoholCaffeineIntake : ℚ
  vegetableFruitIntake : ℚ
  fullLoggingPercentage : ℚ
  allergenAlerts : List String
  healthRiskPercentage : ℚ
  averageEatingHours : EatingHours
  intermittentFastingHours : ℚ
  missedMealsAlert : ℚ
  nutritionScore : ℚ
  weeklyTrends : WeeklyTrends
  insights : List String
  recommendations : List String
  generalStats : GeneralStats
  healthInsights : HealthInsights
deriving DecidableEq

/-- The `switch (period)` of `getNutritionStatistics`: days subtracted from
`endDate` to obtain `startDate`.  The switch has no default branch, so any
other string leaves `startDate` equal to `endDate`. -/
def daysBack (period : String) : ℤ :=
  if period = "week" then 7
  else if period = "month" then 30
  else if period = "custom" then 14
  else 0

def startDateOf (now : ℤ) (period : String) : ℤ := now - daysBack period * msPerDay

/-- `totalDays = Math.max(1, Math.ceil((endDate - startDate) / msPerDay))`. -/
def totalDaysOf (startDate endDate : ℤ) : ℤ :=
  max 1 (jsCeil (((endDate - startDate : ℤ) : ℚ) / (msPerDay : ℚ)))

/-- The `meals.reduce` computing nutrient totals. -/
def totalsOf (meals : List Meal) : Totals :=
  meals.foldl
    (fun acc meal =>
      { calories := acc.calories + orZero meal.calories
        protein := acc.protein + orZero meal.protein_g
        carbs := acc.carbs + orZero meal.carbs_g
        fats := acc.fats + orZero meal.fats_g
        fiber := acc.fiber + orZero meal.fiber_g
        sodium := acc.sodium + orZero meal.sodium_mg
        sugar := acc.sugar + orZero meal.sugar_g
        fluids := acc.fluids + orZero meal.liquids_ml })
    ⟨0, 0, 0, 0, 0, 0, 0, 0⟩

/-- Unrounded daily calorie average (`totals.calories / totalDays`). -/
def averageCaloriesDailyOf (meals : List Meal) (startDate endDate : ℤ) : ℚ :=
  (totalsOf meals).calories / ((totalDaysOf startDate endDate : ℤ) : ℚ)

/-- `processedFoodPercentage` before rounding. -/
def processedFoodPercentageOf (meals : List Meal) : ℚ :=
  let processedFoodCount :=
    (meals.filter fun meal =>
      meal.processing_level == "HIGHLY_PROCESSED" ||
      meal.processing_level == "PROCESSED").length
  if 0 < meals.length then ((processedFoodCount : ℚ) / (meals.length : ℚ)) * 100 else 0

/-- The argument object of `calculateNutritionScore`. -/
structure ScoreInput where
  averageCaloriesDaily : ℚ
  averageProteinDaily : ℚ
  averageFiberDaily : ℚ
  processedFoodPercentage : ℚ
  calorieGoalAchievementPercent : ℚ
deriving DecidableEq

/-- The unrounded derived metrics handed to `calculateNutritionScore`. -/
def scoreInputOf (meals : List Meal) (startDate endDate : ℤ) : ScoreInput :=
  let totalDays := totalDaysOf startDate endDate
  let totals := totalsOf meals
  { averageCaloriesDaily := totals.calories / (totalDays : ℚ)
    averageProteinDaily := totals.protein / (totalDays : ℚ)
    averageFiberDaily := totals.fiber / (totalDays : ℚ)
    processedFoodPercentage := processedFoodPercentageOf meals
    calorieGoalAchievementPercent :=
      min 100 (totals.calories / (totalDays : ℚ) / 2000 * 100) }

/-- `calculateNutritionScore`, translated branch for branch. -/
def calculateNutritionScore (data : ScoreInput) : ℤ :=
  let score : ℤ := 50
  let score := score +
    (if 90 ≤ data.calorieGoalAchievementPercent ∧ data.calorieGoalAchievementPercent ≤ 110 then 20
     else if 80 ≤ data.calorieGoalAchievementPercent ∧ data.calorieGoalAchievementPercent ≤ 120 then 15
     else if 70 ≤ data.calorieGoalAchievementPercent ∧ data.calorieGoalAchievementPercent ≤ 130 then 10
     else 0)
  let score := score +
    (if 120 ≤ data.averageProteinDaily then 15
     else if 80 ≤ data.averageProteinDaily then 10
     else if 50 ≤ data.averageProteinDaily then 5
     else 0)
  let score := score +
    (if 25 ≤ data.averageFiberDaily then 10
     else if 15 ≤ data.averageFiberDaily then 7
     else if 10 ≤ data.averageFiberDaily then 5
     else 0)
  let score := score +
    (if data.processedFoodPercentage ≤ 10 then 5
     else if data.processedFoodPercentage ≤ 20 then 0
     else if data.processedFoodPercentage ≤ 40 then -5
     else -15)
  max 1 (min 100 (jsRound ((score : ℤ) : ℚ)))

/-- The argument object of `generateInsights`. -/
structure InsightInput where
  averageCaloriesDaily : ℚ
  averageProteinDaily : ℚ
  averageFiberDaily : ℚ
  processedFoodPercentage : ℚ
  nutritionScore : ℤ
  mealCount : ℕ
  totalDays : ℤ
deriving DecidableEq

def insightInputOf (meals : List Meal) (startDate endDate : ℤ) : InsightInput :=
  let d := scoreInputOf meals startDate endDate
  { averageCaloriesDaily := d.averageCaloriesDaily
    averageProteinDaily := d.averageProteinDaily
    averageFiberDaily := d.averageFiberDaily
    processedFoodPercentage := d.processedFoodPercentage
    nutritionScore := calculateNutritionScore d
    mealCount := meals.length
    totalDays := totalDaysOf startDate endDate }

/-- `generateInsights`: each `insights.push` becomes an appended segment. -/
def generateInsights (data : InsightInput) : List String :=
  let insights : List String := []
  let insights := insights ++
    (if 80 ≤ data.nutritionScore then
       ["Excellent nutrition habits! You\x27re maintaining a well-balanced diet."]
     else if 60 ≤ data.nutritionScore then
       ["Good nutrition foundation with room for improvement."]
     else
       ["Your nutrition could benefit from some adjustments."])
  let insights := insights ++
    (if 120 ≤ data.averageProteinDaily then
       ["Great protein intake! This supports muscle maintenance and satiety."]
     else if data.averageProteinDaily < 80 then
       ["Consider increasing protein intake for better muscle support and satiety."]
     else [])
  let insights := insights ++
    (if 30 < data.processedFoodPercentage then
       ["High processed food intake detected. Try incorporating more whole foods."]
     else if data.processedFoodPercentage < 15 then
       ["Excellent focus on whole foods! This supports overall health."]
     else [])
  let mealsPerDay := (data.mealCount : ℚ) / (data.totalDays : ℚ)
  let insights := insights ++
    (if mealsPerDay < 2 then
       ["Consider logging more meals for better nutrition tracking."]
     else if 5 < mealsPerDay then
       ["Frequent eating pattern detected. Ensure portion control."]
     else [])
  insights

/-- The argument object of `generateRecommendations`. -/
structure RecommendationInput where
  averageCaloriesDaily : ℚ
  averageProteinDaily : ℚ
  averageFiberDaily : ℚ
  processedFoodPercentage : ℚ
  nutritionScore : ℤ
deriving DecidableEq

def recommendationInputOf (meals : List Meal) (startDate endDate : ℤ) : RecommendationInput :=
  let d := scoreInputOf meals startDate endDate
  { averageCaloriesDaily := d.averageCaloriesDaily
    averageProteinDaily := d.averageProteinDaily
    averageFiberDaily := d.averageFiberDaily
    processedFoodPercentage := d.processedFoodPercentage
    nutritionScore := calculateNutritionScore d }

/-- `generateRecommendations`. -/
def generateRecommendations (data : RecommendationInput) : List String :=
  let recommendations : List String := []
  let recommendations := recommendations ++
    (if data.averageProteinDaily < 100 then
       ["Add lean proteins like chicken, fish, or legumes to your meals."]
     else [])
  let recommendations := recommendations ++
    (if data.averageFiberDaily < 20 then
       ["Increase fiber intake with vegetables, fruits, and whole grains."]
     else [])
  let recommendations := recommendations ++
    (if 25 < data.processedFoodPercentage then
       ["Replace processed foods with whole food alternatives when possible."]
     else [])
  let recommendations := recommendations ++
    (if data.averageCaloriesDaily < 1500 then
       ["Consider if you\x27re eating enough to meet your energy needs."]
     else if 2500 < data.averageCaloriesDaily then
       ["Monitor portion sizes to align with your calorie goals."]
     else [])
  recommendations ++ ["Stay hydrated and maintain regular meal timing for optimal metabolism."]

/-- The fractional hour `date.getHours() + date.getMinutes() / 60` of a meal. -/
def fractionalHour (meal : Meal) : ℚ :=
  (getHours meal.upload_time : ℚ) + (getMinutes meal.upload_time : ℚ) / 60

/-- The `formatHour` closure inside `calculateEatingHours`. -/
def formatHour (hour : ℚ) : String :=
  let h : ℤ := jsFloor hour
  let m : ℤ := jsRound ((hour - (h : ℚ)) * 60)
  padTwo (toString h) ++ ":" ++ padTwo (toString m)

/-- `calculateEatingHours`: earliest and latest fractional meal hour, formatted.
`Math.min(...hours)` / `Math.max(...hours)` become folds; the inner `match` is
unreachable in its `[]` case because the meal list is non-empty there. -/
def calculateEatingHours (meals : List Meal) : EatingHours :=
  if meals.length = 0 then ⟨"08:00", "20:00"⟩
  else
    match meals.map fractionalHour with
    | [] => ⟨"08:00", "20:00"⟩
    | h :: hs => ⟨formatHour (hs.foldl min h), formatHour (hs.foldl max h)⟩

/-- `calculateIntermittentFasting`: parse the two `HH:MM` strings, compare the
minute counts, and round the fasting minutes to whole hours. -/
def calculateIntermittentFasting (eatingHours : EatingHours) : ℤ :=
  let sp := (jsSplit eatingHours.start ':').map parseNum
  let ep := (jsSplit eatingHours.endTime ':').map parseNum
  let startH := sp.getD 0 0
  let startM := sp.getD 1 0
  let endH := ep.getD 0 0
  let endM := ep.getD 1 0
  let startMinutes := startH * 60 + startM
  let endMinutes := endH * 60 + endM
  let fastingMinutes :=
    if startMinutes < endMinutes then 24 * 60 - (endMinutes - startMinutes)
    else startMinutes - endMinutes
  jsRound ((fastingMinutes : ℚ) / 60)

/-- Number of meals whose hour-of-day is `h` (the `hourCounts` map). -/
def hourCounts (meals : List Meal) (h : ℕ) : ℕ :=
  (meals.filter fun meal => getHours meal.upload_time == h).length

/-- `getMostCommonMealTime`.  `Object.keys(hourCounts)` iterates integer-like
keys in ascending numeric order, so the keys are the hours `0..23` that occur,
in order; the `reduce` keeps `a` only when its count is strictly greater, so a
tie moves to the later key.  The inner `[]` case is unreachable because a
non-empty meal list populates at least one bucket. -/
def getMostCommonMealTime (meals : List Meal) : String :=
  if meals.length = 0 then "12:00"
  else
    match (List.range 24).filter (fun h => 0 < hourCounts meals h) with
    | [] => "12:00"
    | k :: ks =>
      let mostCommonHour :=
        ks.foldl (fun a b => if hourCounts meals b < hourCounts meals a then a else b) k
      padTwo (toString mostCommonHour) ++ ":00"

/-- One bucket of the `dayTotals` array of `calculateWeeklyTrends`. -/
structure DayTotal where
  calories : ℚ
  protein : ℚ
  carbs : ℚ
  fats : ℚ
  count : ℕ
deriving DecidableEq

/-- `Math.floor((mealDate.getTime() - startDate.getTime()) / msPerDay)`. -/
def dayIndexOf (meal : Meal) (startDate : ℤ) : ℤ :=
  jsFloor (((meal.upload_time - startDate : ℤ) : ℚ) / (msPerDay : ℚ))

def addMealTo (d : DayTotal) (meal : Meal) : DayTotal :=
  { calories := d.calories + orZero meal.calories
    protein := d.protein + orZero meal.protein_g
    carbs := d.carbs + orZero meal.carbs_g
    fats := d.fats + orZero meal.fats_g
    count := d.count + 1 }

/-- The `meals.forEach` accumulation of `calculateWeeklyTrends`, as a map from
bucket index to bucket. -/
def dayTotalsOf (meals : List Meal) (startDate : ℤ) : ℕ → DayTotal :=
  meals.foldl
    (fun acc meal =>
      let dayIndex := dayIndexOf meal startDate
      if 0 ≤ dayIndex ∧ dayIndex < 7 then
        fun i : ℕ => if (i : ℤ) = dayIndex then addMealTo (acc i) meal else acc i
      else acc)
    (fun _ => ⟨0, 0, 0, 0, 0⟩)

/-- `calculateWeeklyTrends` (the `endDate` parameter is unused in the source
as well). -/
def calculateWeeklyTrends (meals : List Meal) (startDate endDate : ℤ) : WeeklyTrends :=
  let dayTotals := dayTotalsOf meals startDate
  { calories := (List.range 7).map fun i => ((jsRound (dayTotals i).calories : ℤ) : ℚ)
    protein := (List.range 7).map fun i => ((jsRound (dayTotals i).protein : ℤ) : ℚ)
    carbs := (List.range 7).map fun i => ((jsRound (dayTotals i).carbs : ℤ) : ℚ)
    fats := (List.range 7).map fun i => ((jsRound (dayTotals i).fats : ℤ) : ℚ) }

/-- `calculateAlcoholCaffeine` (caffeine converted mg to g equivalent). -/
def calculateAlcoholCaffeine (meals : List Meal) : ℚ :=
  meals.foldl (fun total meal => total + orZero meal.alcohol_g + orZero meal.caffeine_mg / 100) 0

/-- Optional-chained `o?.toLowerCase().includes(sub)`. -/
def optIncludes (o : Option String) (sub : String) : Bool :=
  match o with
  | some s => jsIncludes s.toLower sub
  | none => false

def isVegetableFruitMeal (meal : Meal) : Bool :=
  optIncludes meal.food_category "vegetable" ||
  optIncludes meal.food_category "fruit" ||
  optIncludes meal.meal_name "salad" ||
  optIncludes meal.meal_name "fruit"

def calculateVegetableFruitIntake (meals : List Meal) : ℤ :=
  let vegetableFruitMeals := (meals.filter isVegetableFruitMeal).length
  if 0 < meals.length then
    jsRound (((vegetableFruitMeals : ℚ) / (meals.length : ℚ)) * 100)
  else 0

def calculateFullLoggingPercentage (meals : List Meal) (totalDays : ℤ) : ℤ :=
  let expectedMeals := totalDays * 3
  min 100 (jsRound (((meals.length : ℚ) / (expectedMeals : ℚ)) * 100))

/-- `extractAllergenAlerts`: a JS `Set` keeps first-insertion order, which
`Array.from` preserves. -/
def extractAllergenAlerts (meals : List Meal) : List String :=
  meals.foldl
    (fun acc meal => meal.allergens_json.foldl (fun s a => if a ∈ s then s else s ++ [a]) acc)
    []

def hasHealthRiskNotes (meal : Meal) : Bool :=
  match meal.health_risk_notes with
  | some s => 0 < s.length
  | none => false

def calculateHealthRiskPercentage (meals : List Meal) : ℤ :=
  let riskMeals := (meals.filter hasHealthRiskNotes).length
  if 0 < meals.length then jsRound (((riskMeals : ℚ) / (meals.length : ℚ)) * 100) else 0

def calculateMissedMeals (totalDays : ℤ) (mealCount : ℕ) : ℤ :=
  let expectedMeals := totalDays * 3
  max 0 (expectedMeals - (mealCount : ℤ))

def getProteinAdequacyInsight (averageProtein : ℚ) : String :=
  if 120 ≤ averageProtein then
    "Excellent protein intake supporting muscle health and satiety"
  else if 80 ≤ averageProtein then
    "Good protein levels, consider slight increase for optimal benefits"
  else
    "Protein intake below recommended levels - focus on lean proteins"

def getCalorieDistributionInsight (averageCalories : ℚ) : String :=
  if 1800 ≤ averageCalories ∧ averageCalories ≤ 2200 then
    "Calorie intake appears well-balanced for most adults"
  else if averageCalories < 1500 then
    "Calorie intake may be too low - ensure adequate energy for daily needs"
  else
    "Higher calorie intake - monitor portion sizes and activity levels"

def getFiberIntakeInsight (averageFiber : ℚ) : String :=
  if 25 ≤ averageFiber then
    "Excellent fiber intake supporting digestive health"
  else if 15 ≤ averageFiber then
    "Good fiber levels, aim for 25g daily for optimal benefits"
  else
    "Low fiber intake - increase vegetables, fruits, and whole grains"

/-- `getDefaultStatistics`, field for field. -/
def getDefaultStatistics : NutritionStatistics :=
  { averageCaloriesDaily := 0
    calorieGoalAchievementPercent := 0
    averageProteinDaily := 0
    averageCarbsDaily := 0
    averageFatsDaily := 0
    averageFiberDaily := 0
    averageSodiumDaily := 0
    averageSugarDaily := 0
    averageFluidsDaily := 0
    processedFoodPercentage := 0
    alcoholCaffeineIntake := 0
    vegetableFruitIntake := 0
    fullLoggingPercentage := 0
    allergenAlerts := []
    healthRiskPercentage := 0
    averageEatingHours := ⟨"08:00", "20:00"⟩
    intermittentFastingHours := 12
    missedMealsAlert := 0
    nutritionScore := 50
    weeklyTrends :=
      { calories := [0, 0, 0, 0, 0, 0, 0]
        protein := [0, 0, 0, 0, 0, 0, 0]
        carbs := [0, 0, 0, 0, 0, 0, 0]
        fats := [0, 0, 0, 0, 0, 0, 0] }
    insights := ["Start logging meals to see personalized insights!"]
    recommendations :=
      ["Begin by logging your meals regularly to get personalized recommendations."]
    generalStats :=
      { averageCaloriesPerMeal := 0
        averageProteinPerMeal := 0
        mostCommonMealTime := "12:00"
        averageMealsPerDay := 0 }
    healthInsights :=
      { proteinAdequacy := "Start logging meals to track protein intake"
        calorieDistribution := "Begin meal logging to analyze calorie patterns"
        fiberIntake := "Track your meals to monitor fiber consumption" } }

/-- The non-empty branch of `getNutritionStatistics` (everything after the
`meals.length === 0` early return). -/
def computeStatistics (meals : List Meal) (startDate endDate : ℤ) : NutritionStatistics :=
  let totalDays := totalDaysOf startDate endDate
  let totals := totalsOf meals
  let data := scoreInputOf meals startDate endDate
  let nutritionScore := calculateNutritionScore data
  let eatingHours := calculateEatingHours meals
  { averageCaloriesDaily := ((jsRound data.averageCaloriesDaily : ℤ) : ℚ)
    calorieGoalAchievementPercent := ((jsRound data.calorieGoalAchievementPercent : ℤ) : ℚ)
    averageProteinDaily := ((jsRound data.averageProteinDaily : ℤ) : ℚ)
    averageCarbsDaily := ((jsRound (totals.carbs / (totalDays : ℚ)) : ℤ) : ℚ)
    averageFatsDaily := ((jsRound (totals.fats / (totalDays : ℚ)) : ℤ) : ℚ)
    averageFiberDaily := ((jsRound data.averageFiberDaily : ℤ) : ℚ)
    averageSodiumDaily := ((jsRound (totals.sodium / (totalDays : ℚ)) : ℤ) : ℚ)
    averageSugarDaily := ((jsRound (totals.sugar / (totalDays : ℚ)) : ℤ) : ℚ)
    averageFluidsDaily := ((jsRound (totals.fluids / (totalDays : ℚ)) : ℤ) : ℚ)
    processedFoodPercentage := ((jsRound data.processedFoodPercentage : ℤ) : ℚ)
    alcoholCaffeineIntake := calculateAlcoholCaffeine meals
    vegetableFruitIntake := ((calculateVegetableFruitIntake meals : ℤ) : ℚ)
    fullLoggingPercentage := ((calculateFullLoggingPercentage meals totalDays : ℤ) : ℚ)
    allergenAlerts := extractAllergenAlerts meals
    healthRiskPercentage := ((calculateHealthRiskPercentage meals : ℤ) : ℚ)
    averageEatingHours := eatingHours
    intermittentFastingHours := ((calculateIntermittentFasting eatingHours : ℤ) : ℚ)
    missedMealsAlert := ((calculateMissedMeals totalDays meals.length : ℤ) : ℚ)
    nutritionScore := ((nutritionScore : ℤ) : ℚ)
    weeklyTrends := calculateWeeklyTrends meals startDate endDate
    insights := generateInsights (insightInputOf meals startDate endDate)
    recommendations := generateRecommendations (recommendationInputOf meals startDate endDate)
    generalStats :=
      { averageCaloriesPerMeal :=
          ((jsRound (if 0 < meals.length then totals.calories / (meals.length : ℚ) else 0) : ℤ) : ℚ)
        averageProteinPerMeal :=
          ((jsRound (if 0 < meals.length then totals.protein / (meals.length : ℚ) else 0) : ℤ) : ℚ)
        mostCommonMealTime := getMostCommonMealTime meals
        averageMealsPerDay :=
          ((jsRound ((meals.length : ℚ) / (totalDays : ℚ) * 10) : ℤ) : ℚ) / 10 }
    healthInsights :=
      { proteinAdequacy := getProteinAdequacyInsight data.averageProteinDaily
        calorieDistribution := getCalorieDistributionInsight data.averageCaloriesDaily
        fiberIntake := getFiberIntakeInsight data.averageFiberDaily } }

/-- `getNutritionStatistics` as a pure function: the meal list the database
query would return is passed in, `now` plays the role of `new Date()`.  The
surrounding try/catch rethrows as a generic error, modelled by the `Except`
result type; no operation in the body throws, so the error branch never
fires. -/
def getNutritionStatistics (meals : List Meal) (period : String) (now : ℤ) :
    Except String NutritionStatistics :=
  let endDate := now
  let startDate := startDateOf now period
  if meals.length = 0 then Except.ok getDefaultStatistics
  else Except.ok (computeStatistics meals startDate endDate)

/-! ## Generic arithmetic lemmas about the JavaScript primitives -/

theorem jsRound_intCast (n : ℤ) : jsRound ((n : ℤ) : ℚ) = n := by
  unfold jsRound
  rw [Int.floor_int_add]
  norm_num

theorem jsRound_le_jsRound {q r : ℚ} (h : q ≤ r) : jsRound q ≤ jsRound r :=
  Int.floor_le_floor (by linarith)

theorem jsRound_hundred : jsRound (100 : ℚ) = 100 := by
  have := jsRound_intCast 100
  norm_num at this
  exact this

/-- `Math.round` and the cap at 100 commute (because rounding is monotone and
fixes 100). -/
theorem jsRound_min_hundred (q : ℚ) : jsRound (min 100 q) = min 100 (jsRound q) := by
  rcases le_total q 100 with h | h
  · rw [min_eq_right h, min_eq_right]
    calc jsRound q ≤ jsRound (100 : ℚ) := jsRound_le_jsRound h
    _ = 100 := jsRound_hundred
  · rw [min_eq_left h, min_eq_left, jsRound_hundred]
    calc (100 : ℤ) = jsRound (100 : ℚ) := jsRound_hundred.symm
    _ ≤ jsRound q := jsRound_le_jsRound h

theorem getHours_lt (t : ℤ) : getHours t < 24 := by
  unfold getHours
  rw [Int.toNat_lt' (by norm_num)]
  have h2 : Int.emod t msPerDay < 86400000 := by
    have := Int.emod_lt_of_pos t (show (0 : ℤ) < msPerDay by norm_num [msPerDay])
    simpa [msPerDay] using this
  have : Int.emod t msPerDay / 3600000 < 24 := by
    rw [Int.ediv_lt_iff_lt_mul (by norm_num)]
    linarith
  exact this

theorem getMinutes_lt (t : ℤ) : getMinutes t < 60 := by
  unfold getMinutes
  rw [Int.toNat_lt' (by norm_num)]
  have h2 : Int.emod t 3600000 < 3600000 := Int.emod_lt_of_pos t (by norm_num)
  have : Int.emod t 3600000 / 60000 < 60 := by
    rw [Int.ediv_lt_iff_lt_mul (by norm_num)]
    linarith
  exact this

/-! ## C1: empty meal list returns the documented default object -/

/-- C1: for an empty input meal list and any supported period, the aggregator
returns exactly the documented default `NutritionStatistics` object — every
daily average 0, `calorieGoalAchievementPercent` 0, `processedFoodPercentage`
0, `nutritionScore` 50, eating window `08:00`–`20:00`, 12 fasting hours,
`missedMealsAlert` 0, all four weekly trend sequences seven zeros, and
`mostCommonMealTime` `12:00` — and it does not fail (the result is `ok`). -/
theorem getNutritionStatistics_empty_default (period : String) (now : ℤ)
    (hp : period = "week" ∨ period = "month" ∨ period = "custom") :
    getNutritionStatistics [] period now = Except.ok getDefaultStatistics ∧
    getDefaultStatistics.averageCaloriesDaily = 0 ∧
    getDefaultStatistics.averageProteinDaily = 0 ∧
    getDefaultStatistics.averageCarbsDaily = 0 ∧
    getDefaultStatistics.averageFatsDaily = 0 ∧
    getDefaultStatistics.averageFiberDaily = 0 ∧
    getDefaultStatistics.averageSodiumDaily = 0 ∧
    getDefaultStatistics.averageSugarDaily = 0 ∧
    getDefaultStatistics.averageFluidsDaily = 0 ∧
    getDefaultStatistics.calorieGoalAchievementPercent = 0 ∧
    getDefaultStatistics.processedFoodPercentage = 0 ∧
    getDefaultStatistics.nutritionScore = 50 ∧
    getDefaultStatistics.averageEatingHours = ⟨"08:00", "20:00"⟩ ∧
    getDefaultStatistics.intermittentFastingHours = 12 ∧
    getDefaultStatistics.missedMealsAlert = 0 ∧
    getDefaultStatistics.weeklyTrends =
      ⟨[0, 0, 0, 0, 0, 0, 0], [0, 0, 0, 0, 0, 0, 0],
       [0, 0, 0, 0, 0, 0, 0], [0, 0, 0, 0, 0, 0, 0]⟩ ∧
    getDefaultStatistics.generalStats.mostCommonMealTime = "12:00" :=
  ⟨rfl, rfl, rfl, rfl, rfl, rfl, rfl, rfl, rfl, rfl, rfl, rfl, rfl, rfl, rfl, rfl, rfl⟩

theorem getNutritionStatistics_empty_default_witness :
    ("week" = "week" ∨ "week" = "month" ∨ "week" = "custom") ∧
    getNutritionStatistics [] "week" 0 = Except.ok getDefaultStatistics :=
  ⟨Or.inl rfl, (getNutritionStatistics_empty_default "week" 0 (Or.inl rfl)).1⟩

/-! ## C4: behaviour on an unsupported period value -/

/-- C4 counterexample: with the unsupported period `"year"` the computation
does not signal any error — it returns a statistics object (here the default
object, the meal list being empty), so no `InvalidInputError` is raised. -/
theorem unsupported_period_no_error :
    getNutritionStatistics [] "year" 0 = Except.ok getDefaultStatistics ∧
    ∀ e : String, getNutritionStatistics [] "year" 0 ≠ Except.error e :=
  ⟨rfl, fun _ h => Except.noConfusion h⟩

/-- C4 (amended): for every input whose period selector is not one of
`"week"`, `"month"`, `"custom"`, the computation does not signal an error:
the `switch` has no default branch, so `startDate` stays equal to `endDate`
(a zero-length window) and a statistics object is returned normally. -/
theorem unsupported_period_returns_stats (period : String)
    (hp : period ≠ "week" ∧ period ≠ "month" ∧ period ≠ "custom")
    (meals : List Meal) (now : ℤ) :
    (∃ s, getNutritionStatistics meals period now = Except.ok s) ∧
    startDateOf now period = now := by
  obtain ⟨h1, h2, h3⟩ := hp
  constructor
  · unfold getNutritionStatistics
    by_cases h : meals.length = 0 <;> simp [h]
  · unfold startDateOf daysBack
    rw [if_neg h1, if_neg h2, if_neg h3]
    ring

theorem unsupported_period_returns_stats_witness :
    ("year" ≠ "week" ∧ "year" ≠ "month" ∧ "year" ≠ "custom") ∧
    ((∃ s, getNutritionStatistics [] "year" 0 = Except.ok s) ∧
      startDateOf 0 "year" = 0) :=
  ⟨by decide, unsupported_period_returns_stats "year" (by decide) [] 0⟩

/-! ## The nutrition score: spec-side band formula and its properties -/

/-- Spec side (§4.1 step 16): goal achievement in [90,110] adds 20, else in
[80,120] adds 15, else in [70,130] adds 10, else 0. -/
def specCalorieBonus (g : ℚ) : ℤ :=
  if 90 ≤ g ∧ g ≤ 110 then 20
  else if 80 ≤ g ∧ g ≤ 120 then 15
  else if 70 ≤ g ∧ g ≤ 130 then 10
  else 0

/-- Spec side: average protein ≥ 120 adds 15, else ≥ 80 adds 10, else ≥ 50
adds 5, else 0. -/
def specProteinBonus (p : ℚ) : ℤ :=
  if 120 ≤ p then 15 else if 80 ≤ p then 10 else if 50 ≤ p then 5 else 0

/-- Spec side: average fiber ≥ 25 adds 10, else ≥ 15 adds 7, else ≥ 10 adds
5, else 0. -/
def specFiberBonus (f : ℚ) : ℤ :=
  if 25 ≤ f then 10 else if 15 ≤ f then 7 else if 10 ≤ f then 5 else 0

/-- Spec side: processed-food percentage ≤ 10 adds 5, else ≤ 20 adds 0, else
≤ 40 subtracts 5, else subtracts 15. -/
def specProcessedAdjustment (x : ℚ) : ℤ :=
  if x ≤ 10 then 5 else if x ≤ 20 then 0 else if x ≤ 40 then -5 else -15

/-- Spec side: base 50 plus the four band contributions, rounded and clamped
to [1, 100]. -/
def specNutritionScore (d : ScoreInput) : ℤ :=
  max 1 (min 100 (jsRound (((50 + specCalorieBonus d.calorieGoalAchievementPercent +
    specProteinBonus d.averageProteinDaily + specFiberBonus d.averageFiberDaily +
    specProcessedAdjustment d.processedFoodPercentage : ℤ) : ℚ))))

theorem calculateNutritionScore_eq_spec (d : ScoreInput) :
    calculateNutritionScore d = specNutritionScore d := rfl

theorem specCalorieBonus_bounds (g : ℚ) :
    0 ≤ specCalorieBonus g ∧ specCalorieBonus g ≤ 20 := by
  unfold specCalorieBonus
  split_ifs <;> norm_num

theorem specProteinBonus_bounds (p : ℚ) :
    0 ≤ specProteinBonus p ∧ specProteinBonus p ≤ 15 := by
  unfold specProteinBonus
  split_ifs <;> norm_num

theorem specFiberBonus_bounds (f : ℚ) :
    0 ≤ specFiberBonus f ∧ specFiberBonus f ≤ 10 := by
  unfold specFiberBonus
  split_ifs <;> norm_num

theorem specProcessedAdjustment_bounds (x : ℚ) :
    -15 ≤ specProcessedAdjustment x ∧ specProcessedAdjustment x ≤ 5 := by
  unfold specProcessedAdjustment
  split_ifs <;> norm_num

theorem specProteinBonus_mono {p₁ p₂ : ℚ} (h : p₁ ≤ p₂) :
    specProteinBonus p₁ ≤ specProteinBonus p₂ := by
  unfold specProteinBonus
  split_ifs <;> linarith

/-- The pre-clamp sum lies in [35, 100], so the clamp to [1, 100] only ever
bites at the top. -/
theorem calculateNutritionScore_bounds (d : ScoreInput) :
    35 ≤ calculateNutritionScore d ∧ calculateNutritionScore d ≤ 100 := by
  rw [calculateNutritionScore_eq_spec]
  unfold specNutritionScore
  obtain ⟨c1, c2⟩ := specCalorieBonus_bounds d.calorieGoalAchievementPercent
  obtain ⟨p1, p2⟩ := specProteinBonus_bounds d.averageProteinDaily
  obtain ⟨f1, f2⟩ := specFiberBonus_bounds d.averageFiberDaily
  obtain ⟨x1, x2⟩ := specProcessedAdjustment_bounds d.processedFoodPercentage
  rw [jsRound_intCast]
  constructor
  · have h35 : 35 ≤ 50 + specCalorieBonus d.calorieGoalAchievementPercent +
        specProteinBonus d.averageProteinDaily + specFiberBonus d.averageFiberDaily +
        specProcessedAdjustment d.processedFoodPercentage := by linarith
    have h100 : 50 + specCalorieBonus d.calorieGoalAchievementPercent +
        specProteinBonus d.averageProteinDaily + specFiberBonus d.averageFiberDaily +
        specProcessedAdjustment d.processedFoodPercentage ≤ 100 := by linarith
    calc (35 : ℤ) ≤ min 100 _ := le_min (by norm_num) h35
    _ ≤ max 1 (min 100 _) := le_max_right _ _
  · exact max_le (by norm_num) (min_le_left _ _)

/-! ## C2: the score equals the documented band formula -/

/-- C2: for every non-empty meal list, the nutrition score in the returned
statistics equals the spec formula: base 50 plus the band bonuses with
inclusive boundaries (goal [90,110] → +20, [80,120] → +15, [70,130] → +10;
protein ≥120/≥80/≥50 → +15/+10/+5; fiber ≥25/≥15/≥10 → +10/+7/+5;
processed ≤10 → +5, ≤20 → +0, ≤40 → −5, else −15), rounded and clamped to
[1, 100]. -/
theorem nutritionScore_eq_spec_bands (meals : List Meal) (period : String) (now : ℤ)
    (h : meals ≠ []) :
    getNutritionStatistics meals period now =
      Except.ok (computeStatistics meals (startDateOf now period) now) ∧
    (computeStatistics meals (startDateOf now period) now).nutritionScore =
      ((specNutritionScore (scoreInputOf meals (startDateOf now period) now) : ℤ) : ℚ) := by
  constructor
  · unfold getNutritionStatistics
    rw [if_neg (by simpa using h)]
  · show ((calculateNutritionScore (scoreInputOf meals (startDateOf now period) now) : ℤ) : ℚ) = _
    exact_mod_cast calculateNutritionScore_eq_spec _

def witnessMeal : Meal := { upload_time := 0, calories := some 2000, protein_g := some 100 }

theorem nutritionScore_eq_spec_bands_witness :
    ([witnessMeal] ≠ ([] : List Meal)) ∧
    (getNutritionStatistics [witnessMeal] "week" 0 =
      Except.ok (computeStatistics [witnessMeal] (startDateOf 0 "week") 0) ∧
    (computeStatistics [witnessMeal] (startDateOf 0 "week") 0).nutritionScore =
      ((specNutritionScore (scoreInputOf [witnessMeal] (startDateOf 0 "week") 0) : ℤ) : ℚ)) :=
  ⟨List.cons_ne_nil _ _,
    nutritionScore_eq_spec_bands [witnessMeal] "week" 0 (List.cons_ne_nil _ _)⟩

/-! ## C8: monotonicity of the score in protein -/

/-- C8: the nutrition score is monotonic non-decreasing in average daily
protein with the other inputs held fixed, and crossing 119 → 120 moves the
protein bonus from +10 to +15. -/
theorem nutritionScore_monotone_protein (d : ScoreInput) (p₁ p₂ : ℚ) (h : p₁ ≤ p₂) :
    calculateNutritionScore { d with averageProteinDaily := p₁ } ≤
      calculateNutritionScore { d with averageProteinDaily := p₂ } ∧
    specProteinBonus 119 = 10 ∧ specProteinBonus 120 = 15 := by
  refine ⟨?_, by norm_num [specProteinBonus], by norm_num [specProteinBonus]⟩
  rw [calculateNutritionScore_eq_spec, calculateNutritionScore_eq_spec]
  unfold specNutritionScore
  simp only
  rw [jsRound_intCast, jsRound_intCast]
  have hb := specProteinBonus_mono h
  exact max_le_max le_rfl (min_le_min le_rfl (by linarith))

theorem nutritionScore_monotone_protein_witness :
    ((119 : ℚ) ≤ 120) ∧
    (calculateNutritionScore { (⟨0, 0, 0, 0, 0⟩ : ScoreInput) with averageProteinDaily := 119 } ≤
      calculateNutritionScore { (⟨0, 0, 0, 0, 0⟩ : ScoreInput) with averageProteinDaily := 120 } ∧
    specProteinBonus 119 = 10 ∧ specProteinBonus 120 = 15) :=
  ⟨by norm_num, nutritionScore_monotone_protein ⟨0, 0, 0, 0, 0⟩ 119 120 (by norm_num)⟩

/-! ## C10: the score of a non-empty meal list lies in [35, 100] -/

/-- C10: for every non-empty meal list the returned nutrition score is at
least 35 (base 50 minus the worst processed-food penalty 15, no negative
bonuses) and at most 100, so the lower clamp bound 1 is never reached. -/
theorem nutritionScore_ge_35 (meals : List Meal) (period : String) (now : ℤ)
    (h : meals ≠ []) :
    ∃ s, getNutritionStatistics meals period now = Except.ok s ∧
      (35 : ℚ) ≤ s.nutritionScore ∧ s.nutritionScore ≤ 100 := by
  refine ⟨computeStatistics meals (startDateOf now period) now, ?_, ?_, ?_⟩
  · unfold getNutritionStatistics
    rw [if_neg (by simpa using h)]
  · show (35 : ℚ) ≤ ((calculateNutritionScore (scoreInputOf meals (startDateOf now period) now) : ℤ) : ℚ)
    exact_mod_cast (calculateNutritionScore_bounds _).1
  · show ((calculateNutritionScore (scoreInputOf meals (startDateOf now period) now) : ℤ) : ℚ) ≤ 100
    exact_mod_cast (calculateNutritionScore_bounds _).2

theorem nutritionScore_ge_35_witness :
    ([witnessMeal] ≠ ([] : List Meal)) ∧
    (∃ s, getNutritionStatistics [witnessMeal] "week" 0 = Except.ok s ∧
      (35 : ℚ) ≤ s.nutritionScore ∧ s.nutritionScore ≤ 100) :=
  ⟨List.cons_ne_nil _ _, nutritionScore_ge_35 [witnessMeal] "week" 0 (List.cons_ne_nil _ _)⟩

/-! ## C7: calorie goal achievement percent -/

/-- C7: for every non-empty meal list,
`calorieGoalAchievementPercent = min(100, round(100 * avgCaloriesDaily / 2000))`
(the source takes `min` before rounding, which agrees because rounding is
monotone and fixes 100), and it never exceeds 100. -/
theorem calorieGoalAchievementPercent_spec (meals : List Meal) (period : String)
    (now : ℤ) (h : meals ≠ []) :
    ∃ s, getNutritionStatistics meals period now = Except.ok s ∧
      s.calorieGoalAchievementPercent =
        ((min 100 (jsRound (100 * averageCaloriesDailyOf meals (startDateOf now period) now / 2000)) : ℤ) : ℚ) ∧
      s.calorieGoalAchievementPercent ≤ 100 := by
  have key : jsRound (scoreInputOf meals (startDateOf now period) now).calorieGoalAchievementPercent =
      min 100 (jsRound (100 * averageCaloriesDailyOf meals (startDateOf now period) now / 2000)) := by
    show jsRound (min 100 (averageCaloriesDailyOf meals (startDateOf now period) now / 2000 * 100)) = _
    rw [show averageCaloriesDailyOf meals (startDateOf now period) now / 2000 * 100 =
        100 * averageCaloriesDailyOf meals (startDateOf now period) now / 2000 from by ring]
    exact jsRound_min_hundred _
  refine ⟨computeStatistics meals (startDateOf now period) now, ?_, ?_, ?_⟩
  · unfold getNutritionStatistics
    rw [if_neg (by simpa using h)]
  · show ((jsRound (scoreInputOf meals (startDateOf now period) now).calorieGoalAchievementPercent : ℤ) : ℚ) = _
    exact_mod_cast congrArg (fun z : ℤ => (z : ℚ)) key
  · show ((jsRound (scoreInputOf meals (startDateOf now period) now).calorieGoalAchievementPercent : ℤ) : ℚ) ≤ 100
    rw [key]
    exact_mod_cast min_le_left (100 : ℤ) _

theorem calorieGoalAchievementPercent_spec_witness :
    ([witnessMeal] ≠ ([] : List Meal)) ∧
    (∃ s, getNutritionStatistics [witnessMeal] "week" 0 = Except.ok s ∧
      s.calorieGoalAchievementPercent =
        ((min 100 (jsRound (100 * averageCaloriesDailyOf [witnessMeal] (startDateOf 0 "week") 0 / 2000)) : ℤ) : ℚ) ∧
      s.calorieGoalAchievementPercent ≤ 100) :=
  ⟨List.cons_ne_nil _ _,
    calorieGoalAchievementPercent_spec [witnessMeal] "week" 0 (List.cons_ne_nil _ _)⟩

/-! ## C9: the score-tier insight comes first, exactly once -/

/-- Spec side (§4.2): exactly one of three tier strings, chosen by score. -/
def specScoreTierInsight (score : ℤ) : String :=
  if 80 ≤ score then
    "Excellent nutrition habits! You\x27re maintaining a well-balanced diet."
  else if 60 ≤ score then
    "Good nutrition foundation with room for improvement."
  else
    "Your nutrition could benefit from some adjustments."

def tierStrings : List String :=
  ["Excellent nutrition habits! You\x27re maintaining a well-balanced diet.",
   "Good nutrition foundation with room for improvement.",
   "Your nutrition could benefit from some adjustments."]

/-- Spec side: the protein rule of the insight list. -/
def specProteinInsight (data : InsightInput) : List String :=
  if 120 ≤ data.averageProteinDaily then
    ["Great protein intake! This supports muscle maintenance and satiety."]
  else if data.averageProteinDaily < 80 then
    ["Consider increasing protein intake for better muscle support and satiety."]
  else []

/-- Spec side: the processed-food rule of the insight list. -/
def specProcessedInsight (data : InsightInput) : List String :=
  if 30 < data.processedFoodPercentage then
    ["High processed food intake detected. Try incorporating more whole foods."]
  else if data.processedFoodPercentage < 15 then
    ["Excellent focus on whole foods! This supports overall health."]
  else []

/-- Spec side: the meals-per-day rule of the insight list. -/
def specFrequencyInsight (data : InsightInput) : List String :=
  if (data.mealCount : ℚ) / (data.totalDays : ℚ) < 2 then
    ["Consider logging more meals for better nutrition tracking."]
  else if 5 < (data.mealCount : ℚ) / (data.totalDays : ℚ) then
    ["Frequent eating pattern detected. Ensure portion control."]
  else []

theorem tier_singleton (score : ℤ) :
    (if 80 ≤ score then
       ["Excellent nutrition habits! You\x27re maintaining a well-balanced diet."]
     else if 60 ≤ score then
       ["Good nutrition foundation with room for improvement."]
     else
       ["Your nutrition could benefit from some adjustments."]) =
      [specScoreTierInsight score] := by
  unfold specScoreTierInsight
  split_ifs <;> rfl

theorem generateInsights_eq (data : InsightInput) :
    generateInsights data = specScoreTierInsight data.nutritionScore ::
      (specProteinInsight data ++ specProcessedInsight data ++ specFrequencyInsight data) := by
  simp only [generateInsights]
  rw [tier_singleton]
  rfl

theorem specProteinInsight_not_tier (data : InsightInput) :
    ∀ t ∈ specProteinInsight data, t ∉ tierStrings := by
  unfold specProteinInsight
  split_ifs <;> decide

theorem specProcessedInsight_not_tier (data : InsightInput) :
    ∀ t ∈ specProcessedInsight data, t ∉ tierStrings := by
  unfold specProcessedInsight
  split_ifs <;> decide

theorem specFrequencyInsight_not_tier (data : InsightInput) :
    ∀ t ∈ specFrequencyInsight data, t ∉ tierStrings := by
  unfold specFrequencyInsight
  split_ifs <;> decide

theorem specScoreTierInsight_mem (score : ℤ) : specScoreTierInsight score ∈ tierStrings := by
  unfold specScoreTierInsight
  split_ifs <;> decide

/-- C9: for every non-empty meal list, the insights list starts with exactly
one of the three score-tier strings — the excellent-habits string iff the
score is ≥ 80, else the good-foundation string iff ≥ 60, else the
could-benefit string — followed by the remaining rules\x27 output in fixed rule
order (protein, processed food, meal frequency); no later rule emits a tier
string, so exactly one tier string occurs. -/
theorem insights_tier_first (meals : List Meal) (period : String) (now : ℤ)
    (h : meals ≠ []) :
    ∃ s, getNutritionStatistics meals period now = Except.ok s ∧
      s.insights = specScoreTierInsight (insightInputOf meals (startDateOf now period) now).nutritionScore ::
        (specProteinInsight (insightInputOf meals (startDateOf now period) now) ++
         specProcessedInsight (insightInputOf meals (startDateOf now period) now) ++
         specFrequencyInsight (insightInputOf meals (startDateOf now period) now)) ∧
      s.insights.countP (fun t => decide (t ∈ tierStrings)) = 1 := by
  refine ⟨computeStatistics meals (startDateOf now period) now, ?_, ?_, ?_⟩
  · unfold getNutritionStatistics
    rw [if_neg (by simpa using h)]
  · show generateInsights (insightInputOf meals (startDateOf now period) now) = _
    exact generateInsights_eq _
  · show (generateInsights (insightInputOf meals (startDateOf now period) now)).countP _ = 1
    rw [generateInsights_eq]
    rw [List.countP_cons_of_pos _ _ (by simp [specScoreTierInsight_mem])]
    have hz : (specProteinInsight (insightInputOf meals (startDateOf now period) now) ++
        specProcessedInsight (insightInputOf meals (startDateOf now period) now) ++
        specFrequencyInsight (insightInputOf meals (startDateOf now period) now)).countP
          (fun t => decide (t ∈ tierStrings)) = 0 := by
      rw [List.countP_eq_zero]
      intro t ht
      simp only [List.mem_append] at ht
      rcases ht with (ht | ht) | ht
      · simpa using specProteinInsight_not_tier _ t ht
      · simpa using specProcessedInsight_not_tier _ t ht
      · simpa using specFrequencyInsight_not_tier _ t ht
    rw [hz]

theorem insights_tier_first_witness :
    ([witnessMeal] ≠ ([] : List Meal)) ∧
    (∃ s, getNutritionStatistics [witnessMeal] "week" 0 = Except.ok s ∧
      s.insights = specScoreTierInsight (insightInputOf [witnessMeal] (startDateOf 0 "week") 0).nutritionScore ::
        (specProteinInsight (insightInputOf [witnessMeal] (startDateOf 0 "week") 0) ++
         specProcessedInsight (insightInputOf [witnessMeal] (startDateOf 0 "week") 0) ++
         specFrequencyInsight (insightInputOf [witnessMeal] (startDateOf 0 "week") 0)) ∧
      s.insights.countP (fun t => decide (t ∈ tierStrings)) = 1) :=
  ⟨List.cons_ne_nil _ _, insights_tier_first [witnessMeal] "week" 0 (List.cons_ne_nil _ _)⟩

/-! ## C3: weekly trend sums -/

/-- The window test of `calculateWeeklyTrends` (`0 <= dayIndex && dayIndex < 7`)
as a filter predicate. -/
def inTrendWindow (meal : Meal) (startDate : ℤ) : Bool :=
  decide (0 ≤ dayIndexOf meal startDate ∧ dayIndexOf meal startDate < 7)

/-- Generic bucket-sum property of the `calculateWeeklyTrends` fold: for any
bucket projection `g` that `addMealTo` advances by the meal projection `f`,
the sum of `g` over the seven buckets grows by exactly the `f`-sum of the
meals inside the window. -/
theorem foldl_buckets_sum (g : DayTotal → ℚ) (f : Meal → ℚ)
    (hgf : ∀ d meal, g (addMealTo d meal) = g d + f meal) (startDate : ℤ) :
    ∀ (meals : List Meal) (acc : ℕ → DayTotal),
      (Finset.range 7).sum (fun i => g ((List.foldl
        (fun acc meal =>
          let dayIndex := dayIndexOf meal startDate
          if 0 ≤ dayIndex ∧ dayIndex < 7 then
            fun i : ℕ => if (i : ℤ) = dayIndex then addMealTo (acc i) meal else acc i
          else acc) acc meals) i)) =
      (Finset.range 7).sum (fun i => g (acc i)) +
        ((meals.filter fun m => inTrendWindow m startDate).map f).sum := by
  intro meals
  induction meals with
  | nil => intro acc; simp
  | cons m ms ih =>
    intro acc
    rw [List.foldl_cons, ih]
    by_cases hm : 0 ≤ dayIndexOf m startDate ∧ dayIndexOf m startDate < 7
    · have hfil : (m :: ms).filter (fun m => inTrendWindow m startDate) =
          m :: ms.filter (fun m => inTrendWindow m startDate) := by
        simp [List.filter_cons, inTrendWindow, hm]
      have hstep : (Finset.range 7).sum (fun i => g
          ((fun i : ℕ => if (i : ℤ) = dayIndexOf m startDate
            then addMealTo (acc i) m else acc i) i)) =
          (Finset.range 7).sum (fun i => g (acc i)) + f m := by
        have point : ∀ i ∈ Finset.range 7,
            g (if (i : ℤ) = dayIndexOf m startDate then addMealTo (acc i) m else acc i) =
            g (acc i) + (if i = (dayIndexOf m startDate).toNat then f m else 0) := by
          intro i _
          by_cases hij : (i : ℤ) = dayIndexOf m startDate
          · rw [if_pos hij, if_pos (by omega), hgf]
          · rw [if_neg hij, if_neg (by omega), add_zero]
        rw [Finset.sum_congr rfl point, Finset.sum_add_distrib,
          Finset.sum_ite_eq' (Finset.range 7) ((dayIndexOf m startDate).toNat)
            (fun _ => f m), if_pos (Finset.mem_range.mpr (by omega))]
      rw [if_pos hm, hstep, hfil]
      simp only [List.map_cons, List.sum_cons]
      ring
    · have hfil : (m :: ms).filter (fun m => inTrendWindow m startDate) =
          ms.filter (fun m => inTrendWindow m startDate) := by
        simp [List.filter_cons, inTrendWindow, hm]
      rw [if_neg hm, hfil]

/-- Generic integrality of the buckets: if every meal projection is an
integer, so is every bucket total. -/
theorem foldl_buckets_int (g : DayTotal → ℚ) (f : Meal → ℚ)
    (hgf : ∀ d meal, g (addMealTo d meal) = g d + f meal) (startDate : ℤ) :
    ∀ (meals : List Meal) (acc : ℕ → DayTotal),
      (∀ i, ∃ z : ℤ, g (acc i) = (z : ℚ)) →
      (∀ m ∈ meals, ∃ z : ℤ, f m = (z : ℚ)) →
      ∀ i, ∃ z : ℤ, g ((List.foldl
        (fun acc meal =>
          let dayIndex := dayIndexOf meal startDate
          if 0 ≤ dayIndex ∧ dayIndex < 7 then
            fun i : ℕ => if (i : ℤ) = dayIndex then addMealTo (acc i) meal else acc i
          else acc) acc meals) i) = (z : ℚ) := by
  intro meals
  induction meals with
  | nil => intro acc hacc _ i; exact hacc i
  | cons m ms ih =>
    intro acc hacc hall i
    rw [List.foldl_cons]
    refine ih _ ?_ (fun m hm => hall m (List.mem_cons_of_mem _ hm)) i
    intro j
    by_cases hm : 0 ≤ dayIndexOf m startDate ∧ dayIndexOf m startDate < 7
    · rw [if_pos hm]
      by_cases hij : (j : ℤ) = dayIndexOf m startDate
      · rw [if_pos hij, hgf]
        obtain ⟨z1, hz1⟩ := hacc j
        obtain ⟨z2, hz2⟩ := hall m (List.mem_cons_self _ _)
        exact ⟨z1 + z2, by push_cast [hz1, hz2]; ring⟩
      · rw [if_neg hij]; exact hacc j
    · rw [if_neg hm]; exact hacc j

theorem list_range_map_sum (f : ℕ → ℚ) (n : ℕ) :
    ((List.range n).map f).sum = (Finset.range n).sum f := by
  induction n with
  | zero => simp
  | succ n ih => rw [List.range_succ, Finset.sum_range_succ, List.map_append]; simp [ih]

/-- Instantiation of the two generic lemmas for one nutrient projection:
the rounded trend buckets of that nutrient sum to the in-window meal sum,
provided the per-meal values are integers. -/
theorem trend_sum_of_int (g : DayTotal → ℚ) (f : Meal → ℚ)
    (hgf : ∀ d meal, g (addMealTo d meal) = g d + f meal)
    (hg0 : g ⟨0, 0, 0, 0, 0⟩ = 0)
    (meals : List Meal) (startDate : ℤ)
    (hint : ∀ m ∈ meals, ∃ z : ℤ, f m = (z : ℚ)) :
    ((List.range 7).map fun i =>
      ((jsRound (g (dayTotalsOf meals startDate i)) : ℤ) : ℚ)).sum =
      ((meals.filter fun m => inTrendWindow m startDate).map f).sum := by
  have hrnd : ∀ i, ((jsRound (g (dayTotalsOf meals startDate i)) : ℤ) : ℚ) =
      g (dayTotalsOf meals startDate i) := by
    intro i
    obtain ⟨z, hz⟩ := foldl_buckets_int g f hgf startDate meals _
      (fun i => ⟨0, by rw [hg0]; norm_num⟩) hint i
    rw [show g (dayTotalsOf meals startDate i) = (z : ℚ) from hz, jsRound_intCast]
  rw [List.map_congr_left (fun i _ => hrnd i), list_range_map_sum]
  have := foldl_buckets_sum g f hgf startDate meals (fun _ => ⟨0, 0, 0, 0, 0⟩)
  rw [show (Finset.range 7).sum (fun i => g ((fun _ => (⟨0, 0, 0, 0, 0⟩ : DayTotal)) i)) = 0
    from by simp [hg0]] at this
  rw [show dayTotalsOf meals startDate = (List.foldl
    (fun acc meal =>
      let dayIndex := dayIndexOf meal startDate
      if 0 ≤ dayIndex ∧ dayIndex < 7 then
        fun i : ℕ => if (i : ℤ) = dayIndex then addMealTo (acc i) meal else acc i
      else acc) (fun _ => ⟨0, 0, 0, 0, 0⟩) meals) from rfl]
  rw [this, zero_add]

def trendCexMeal : Meal := { upload_time := 0, calories := some (1 / 2) }

/-- C3 counterexample: with a single in-window meal of 0.5 calories the trend
buckets are rounded (`Math.round(0.5) = 1`), so the bucket sum is 1 while the
sum of the in-window calorie values is 0.5 — the claimed equality fails for
non-integer nutrient values. -/
theorem weeklyTrends_sum_cex :
    (calculateWeeklyTrends [trendCexMeal] 0 604800000).calories.sum = 1 ∧
    (([trendCexMeal].filter fun m => inTrendWindow m 0).map fun m => orZero m.calories).sum
      = 1 / 2 ∧
    (calculateWeeklyTrends [trendCexMeal] 0 604800000).calories.sum ≠
      (([trendCexMeal].filter fun m => inTrendWindow m 0).map fun m => orZero m.calories).sum := by
  have h1 : (calculateWeeklyTrends [trendCexMeal] 0 604800000).calories = [1, 0, 0, 0, 0, 0, 0] := by
    norm_num [calculateWeeklyTrends, dayTotalsOf, dayIndexOf, jsFloor, jsRound, msPerDay,
      orZero, addMealTo, trendCexMeal, List.range_succ]
  have h2 : ([trendCexMeal].filter fun m => inTrendWindow m 0) = [trendCexMeal] := by
    norm_num [inTrendWindow, dayIndexOf, jsFloor, msPerDay, trendCexMeal, List.filter]
  refine ⟨by rw [h1]; norm_num, by rw [h2]; norm_num [orZero, trendCexMeal], ?_⟩
  rw [h1, h2]
  norm_num [orZero, trendCexMeal]

/-- C3 (amended): for every meal list and any `startDate`/`endDate` (hence
regardless of `totalDays`), provided every in-play nutrient value is an
integer, the sum over the 7 buckets of each `weeklyTrends` sequence equals
the sum of that nutrient over exactly the meals whose
`dayIndex = floor((uploadTime - startDate) / 1 day)` lies in `[0, 7)`; meals
outside that window contribute nothing.  (For non-integer values the buckets
are rounded first, which the counterexample shows can change the sum.) -/
theorem weeklyTrends_sum_int (meals : List Meal) (startDate endDate : ℤ)
    (h : ∀ m ∈ meals,
      (∃ z : ℤ, orZero m.calories = (z : ℚ)) ∧ (∃ z : ℤ, orZero m.protein_g = (z : ℚ)) ∧
      (∃ z : ℤ, orZero m.carbs_g = (z : ℚ)) ∧ (∃ z : ℤ, orZero m.fats_g = (z : ℚ))) :
    (calculateWeeklyTrends meals startDate endDate).calories.sum =
      ((meals.filter fun m => inTrendWindow m startDate).map fun m => orZero m.calories).sum ∧
    (calculateWeeklyTrends meals startDate endDate).protein.sum =
      ((meals.filter fun m => inTrendWindow m startDate).map fun m => orZero m.protein_g).sum ∧
    (calculateWeeklyTrends meals startDate endDate).carbs.sum =
      ((meals.filter fun m => inTrendWindow m startDate).map fun m => orZero m.carbs_g).sum ∧
    (calculateWeeklyTrends meals startDate endDate).fats.sum =
      ((meals.filter fun m => inTrendWindow m startDate).map fun m => orZero m.fats_g).sum := by
  refine ⟨?_, ?_, ?_, ?_⟩
  · exact trend_sum_of_int DayTotal.calories (fun m => orZero m.calories)
      (fun d meal => rfl) rfl meals startDate (fun m hm => (h m hm).1)
  · exact trend_sum_of_int DayTotal.protein (fun m => orZero m.protein_g)
      (fun d meal => rfl) rfl meals startDate (fun m hm => (h m hm).2.1)
  · exact trend_sum_of_int DayTotal.carbs (fun m => orZero m.carbs_g)
      (fun d meal => rfl) rfl meals startDate (fun m hm => (h m hm).2.2.1)
  · exact trend_sum_of_int DayTotal.fats (fun m => orZero m.fats_g)
      (fun d meal => rfl) rfl meals startDate (fun m hm => (h m hm).2.2.2)

def wTrendMeal1 : Meal :=
  { upload_time := 0, calories := some 500, protein_g := some 30,
    carbs_g := some 50, fats_g := some 20 }

def wTrendMeal2 : Meal := { upload_time := 8 * 86400000 }

theorem weeklyTrends_sum_int_witness :
    (∀ m ∈ [wTrendMeal1, wTrendMeal2],
      (∃ z : ℤ, orZero m.calories = (z : ℚ)) ∧ (∃ z : ℤ, orZero m.protein_g = (z : ℚ)) ∧
      (∃ z : ℤ, orZero m.carbs_g = (z : ℚ)) ∧ (∃ z : ℤ, orZero m.fats_g = (z : ℚ))) ∧
    ((calculateWeeklyTrends [wTrendMeal1, wTrendMeal2] 0 604800000).calories.sum =
      (([wTrendMeal1, wTrendMeal2].filter fun m => inTrendWindow m 0).map
        fun m => orZero m.calories).sum ∧
    (calculateWeeklyTrends [wTrendMeal1, wTrendMeal2] 0 604800000).protein.sum =
      (([wTrendMeal1, wTrendMeal2].filter fun m => inTrendWindow m 0).map
        fun m => orZero m.protein_g).sum ∧
    (calculateWeeklyTrends [wTrendMeal1, wTrendMeal2] 0 604800000).carbs.sum =
      (([wTrendMeal1, wTrendMeal2].filter fun m => inTrendWindow m 0).map
        fun m => orZero m.carbs_g).sum ∧
    (calculateWeeklyTrends [wTrendMeal1, wTrendMeal2] 0 604800000).fats.sum =
      (([wTrendMeal1, wTrendMeal2].filter fun m => inTrendWindow m 0).map
        fun m => orZero m.fats_g).sum) := by
  have hint : ∀ m ∈ [wTrendMeal1, wTrendMeal2],
      (∃ z : ℤ, orZero m.calories = (z : ℚ)) ∧ (∃ z : ℤ, orZero m.protein_g = (z : ℚ)) ∧
      (∃ z : ℤ, orZero m.carbs_g = (z : ℚ)) ∧ (∃ z : ℤ, orZero m.fats_g = (z : ℚ)) := by
    intro m hm
    fin_cases hm
    · exact ⟨⟨500, by norm_num [orZero, wTrendMeal1]⟩, ⟨30, by norm_num [orZero, wTrendMeal1]⟩,
        ⟨50, by norm_num [orZero, wTrendMeal1]⟩, ⟨20, by norm_num [orZero, wTrendMeal1]⟩⟩
    · exact ⟨⟨0, by norm_num [orZero, wTrendMeal2]⟩, ⟨0, by norm_num [orZero, wTrendMeal2]⟩,
        ⟨0, by norm_num [orZero, wTrendMeal2]⟩, ⟨0, by norm_num [orZero, wTrendMeal2]⟩⟩
  exact ⟨hint, weeklyTrends_sum_int [wTrendMeal1, wTrendMeal2] 0 604800000 hint⟩

/-! ## C5: most common meal time -/

/-- Behaviour of the `Object.keys(...).reduce` of `getMostCommonMealTime` on
an ascending key list: the result is a key of maximal count, and on ties the
*later* (larger) key wins, because `hourCounts[a] > hourCounts[b] ? a : b`
moves to `b` whenever the counts are equal. -/
theorem foldl_pick_last_max (c : ℕ → ℕ) :
    ∀ (ks : List ℕ) (k : ℕ), (∀ b ∈ ks, k < b) → List.Pairwise (· < ·) ks →
      (ks.foldl (fun a b => if c b < c a then a else b) k) ∈ k :: ks ∧
      (∀ x ∈ k :: ks, c x ≤ c (ks.foldl (fun a b => if c b < c a then a else b) k)) ∧
      (∀ x ∈ k :: ks, c x = c (ks.foldl (fun a b => if c b < c a then a else b) k) →
        x ≤ ks.foldl (fun a b => if c b < c a then a else b) k) := by
  intro ks
  induction ks with
  | nil =>
    intro k _ _
    refine ⟨List.mem_cons_self _ _, ?_, ?_⟩
    · intro x hx
      rw [List.mem_singleton.mp hx]
      exact le_rfl
    · intro x hx _
      rw [List.mem_singleton.mp hx]
      exact le_rfl
  | cons b bs ih =>
    intro k hlt hpw
    obtain ⟨hpw1, hpw2⟩ := List.pairwise_cons.mp hpw
    rw [List.foldl_cons]
    by_cases hcb : c b < c k
    · rw [if_pos hcb]
      have hk : ∀ x ∈ bs, k < x :=
        fun x hx => lt_trans (hlt b (List.mem_cons_self _ _)) (hpw1 x hx)
      obtain ⟨hmem, hmax, hties⟩ := ih k hk hpw2
      refine ⟨?_, ?_, ?_⟩
      · rcases List.mem_cons.mp hmem with h | h
        · rw [h]; exact List.mem_cons_self _ _
        · exact List.mem_cons_of_mem _ (List.mem_cons_of_mem _ h)
      · intro x hx
        rcases List.mem_cons.mp hx with h | h
        · rw [h]; exact hmax k (List.mem_cons_self _ _)
        · rcases List.mem_cons.mp h with h' | h'
          · rw [h']
            exact le_of_lt (lt_of_lt_of_le hcb (hmax k (List.mem_cons_self _ _)))
          · exact hmax x (List.mem_cons_of_mem _ h')
      · intro x hx heq
        rcases List.mem_cons.mp hx with h | h
        · rw [h] at heq ⊢; exact hties k (List.mem_cons_self _ _) heq
        · rcases List.mem_cons.mp h with h' | h'
          · rw [h'] at heq
            have : c b < c (List.foldl (fun a b => if c b < c a then a else b) k bs) :=
              lt_of_lt_of_le hcb (hmax k (List.mem_cons_self _ _))
            omega
          · exact hties x (List.mem_cons_of_mem _ h') heq
    · rw [if_neg hcb]
      obtain ⟨hmem, hmax, hties⟩ := ih b hpw1 hpw2
      have hkb : k < b := hlt b (List.mem_cons_self _ _)
      refine ⟨List.mem_cons_of_mem _ hmem, ?_, ?_⟩
      · intro x hx
        rcases List.mem_cons.mp hx with h | h
        · rw [h]
          exact le_trans (Nat.le_of_not_lt hcb) (hmax b (List.mem_cons_self _ _))
        · exact hmax x h
      · intro x hx heq
        rcases List.mem_cons.mp hx with h | h
        · rw [h]
          have hbr : b ≤ List.foldl (fun a b => if c b < c a then a else b) b bs := by
            rcases List.mem_cons.mp hmem with h' | h'
            · omega
            · exact le_of_lt (hpw1 _ h')
          omega
        · exact hties x h heq

/-- Unfolding `getMostCommonMealTime` once the key list is known. -/
theorem getMostCommonMealTime_eq (meals : List Meal) (k : ℕ) (ks : List ℕ)
    (hne : ¬meals.length = 0)
    (hkeq : (List.range 24).filter (fun h => 0 < hourCounts meals h) = k :: ks) :
    getMostCommonMealTime meals = padTwo (toString
      (ks.foldl (fun a b => if hourCounts meals b < hourCounts meals a then a else b) k))
      ++ ":00" := by
  unfold getMostCommonMealTime
  rw [if_neg hne, hkeq]

/-- C5 (amended): for every non-empty meal list, `mostCommonMealTime` is an
hour of maximal meal count formatted as `HH:00`; but on ties the hour chosen
is the one encountered *last* in iteration order over the (ascending) hour
buckets, i.e. the largest tying hour — not the first. -/
theorem mostCommonMealTime_spec (meals : List Meal) (h : meals ≠ []) :
    ∃ hr : ℕ, hr < 24 ∧ 0 < hourCounts meals hr ∧
      (∀ k, k < 24 → hourCounts meals k ≤ hourCounts meals hr) ∧
      (∀ k, k < 24 → hourCounts meals k = hourCounts meals hr → k ≤ hr) ∧
      getMostCommonMealTime meals = padTwo (toString hr) ++ ":00" := by
  obtain ⟨m, ms, rfl⟩ := List.exists_cons_of_ne_nil h
  have hmemk : getHours m.upload_time ∈
      (List.range 24).filter (fun h => 0 < hourCounts (m :: ms) h) := by
    refine List.mem_filter.mpr ⟨List.mem_range.mpr (getHours_lt _), ?_⟩
    have hmm : m ∈ (m :: ms).filter
        (fun meal => getHours meal.upload_time == getHours m.upload_time) :=
      List.mem_filter.mpr ⟨List.mem_cons_self _ _, by simp⟩
    simpa [hourCounts] using List.length_pos.mpr (List.ne_nil_of_mem hmm)
  have hkne : (List.range 24).filter (fun h => 0 < hourCounts (m :: ms) h) ≠ [] :=
    List.ne_nil_of_mem hmemk
  obtain ⟨k, ks, hkeq⟩ := List.exists_cons_of_ne_nil hkne
  have hsorted : List.Pairwise (· < ·)
      ((List.range 24).filter (fun h => 0 < hourCounts (m :: ms) h)) :=
    List.Pairwise.sublist (List.filter_sublist _) (List.pairwise_lt_range 24)
  rw [hkeq] at hsorted
  obtain ⟨hpw1, hpw2⟩ := List.pairwise_cons.mp hsorted
  obtain ⟨hmem, hmax, hties⟩ := foldl_pick_last_max (hourCounts (m :: ms)) ks k hpw1 hpw2
  set r := ks.foldl
    (fun a b => if hourCounts (m :: ms) b < hourCounts (m :: ms) a then a else b) k with hr
  have hrk : r ∈ (List.range 24).filter (fun h => 0 < hourCounts (m :: ms) h) := by
    rw [hkeq]; exact hmem
  have hr24 : r < 24 := List.mem_range.mp (List.mem_filter.mp hrk).1
  have hrpos : 0 < hourCounts (m :: ms) r := by
    have := (List.mem_filter.mp hrk).2
    simpa using this
  refine ⟨r, hr24, hrpos, ?_, ?_, ?_⟩
  · intro k' hk'
    by_cases hp : 0 < hourCounts (m :: ms) k'
    · have : k' ∈ k :: ks := by
        rw [← hkeq]
        exact List.mem_filter.mpr ⟨List.mem_range.mpr hk', by simpa⟩
      exact hmax k' this
    · omega
  · intro k' hk' heq
    have hp : 0 < hourCounts (m :: ms) k' := heq ▸ hrpos
    have : k' ∈ k :: ks := by
      rw [← hkeq]
      exact List.mem_filter.mpr ⟨List.mem_range.mpr hk', by simpa⟩
    exact hties k' this heq
  · exact getMostCommonMealTime_eq (m :: ms) k ks (by simp) hkeq

def hourCexMeal9 : Meal := { upload_time := 9 * 3600000 }

def hourCexMeal21 : Meal := { upload_time := 21 * 3600000 }

/-- C5 counterexample: one meal at 09:00 and one at 21:00 tie at one meal
each; the hour encountered first in iteration order is 9, yet the function
returns `"21:00"`, not `"09:00"` — ties go to the last key, not the first. -/
theorem mostCommonMealTime_cex :
    hourCounts [hourCexMeal9, hourCexMeal21] 9 = 1 ∧
    hourCounts [hourCexMeal9, hourCexMeal21] 21 = 1 ∧
    getMostCommonMealTime [hourCexMeal9, hourCexMeal21] = "21:00" ∧
    getMostCommonMealTime [hourCexMeal9, hourCexMeal21] ≠ "09:00" := by decide

theorem mostCommonMealTime_spec_witness :
    ([hourCexMeal9, hourCexMeal21] ≠ ([] : List Meal)) ∧
    (∃ hr : ℕ, hr < 24 ∧ 0 < hourCounts [hourCexMeal9, hourCexMeal21] hr ∧
      (∀ k, k < 24 → hourCounts [hourCexMeal9, hourCexMeal21] k ≤
        hourCounts [hourCexMeal9, hourCexMeal21] hr) ∧
      (∀ k, k < 24 → hourCounts [hourCexMeal9, hourCexMeal21] k =
        hourCounts [hourCexMeal9, hourCexMeal21] hr → k ≤ hr) ∧
      getMostCommonMealTime [hourCexMeal9, hourCexMeal21] = padTwo (toString hr) ++ ":00") :=
  ⟨List.cons_ne_nil _ _,
    mostCommonMealTime_spec [hourCexMeal9, hourCexMeal21] (List.cons_ne_nil _ _)⟩

/-! ## C6: eating window and intermittent fasting -/

/-- Time-of-day of a meal in minutes (so that the fractional hour of the
source is exactly `mealMinutes / 60`). -/
def mealMinutes (meal : Meal) : ℕ :=
  getHours meal.upload_time * 60 + getMinutes meal.upload_time

/-- Spec side: the earliest meal time-of-day, in minutes. -/
def minMealMinutes (meals : List Meal) : ℕ :=
  match meals.map mealMinutes with
  | [] => 0
  | x :: xs => xs.foldl min x

/-- Spec side: the latest meal time-of-day, in minutes. -/
def maxMealMinutes (meals : List Meal) : ℕ :=
  match meals.map mealMinutes with
  | [] => 0
  | x :: xs => xs.foldl max x

/-- An `HH:MM` string as `formatHour` builds it. -/
def fmtHM (h m : ℤ) : String := padTwo (toString h) ++ ":" ++ padTwo (toString m)

/-- Spec side (§4.1 step 9): `24h − (end − start)` when `end > start`, else
`start − end`, in minutes. -/
def fastingMinutesSpec (meals : List Meal) : ℤ :=
  let s : ℤ := minMealMinutes meals
  let e : ℤ := maxMealMinutes meals
  if s < e then 24 * 60 - (e - s) else s - e

theorem fractionalHour_eq (meal : Meal) :
    fractionalHour meal = ((mealMinutes meal : ℕ) : ℚ) / 60 := by
  unfold fractionalHour mealMinutes
  push_cast
  ring

theorem mealMinutes_lt (meal : Meal) : mealMinutes meal < 1440 := by
  have h1 := getHours_lt meal.upload_time
  have h2 := getMinutes_lt meal.upload_time
  unfold mealMinutes
  omega

theorem foldl_min_map_div (xs : List ℕ) :
    ∀ x : ℕ, (xs.map fun n : ℕ => (n : ℚ) / 60).foldl min ((x : ℚ) / 60) =
      ((xs.foldl min x : ℕ) : ℚ) / 60 := by
  induction xs with
  | nil => intro x; rfl
  | cons b bs ih =>
    intro x
    rw [List.map_cons, List.foldl_cons, List.foldl_cons,
      show min ((x : ℚ) / 60) ((b : ℚ) / 60) = ((min x b : ℕ) : ℚ) / 60 from by
        rw [min_div_div_right (by norm_num : (0 : ℚ) ≤ 60), Nat.cast_min], ih]

theorem foldl_max_map_div (xs : List ℕ) :
    ∀ x : ℕ, (xs.map fun n : ℕ => (n : ℚ) / 60).foldl max ((x : ℚ) / 60) =
      ((xs.foldl max x : ℕ) : ℚ) / 60 := by
  induction xs with
  | nil => intro x; rfl
  | cons b bs ih =>
    intro x
    rw [List.map_cons, List.foldl_cons, List.foldl_cons,
      show max ((x : ℚ) / 60) ((b : ℚ) / 60) = ((max x b : ℕ) : ℚ) / 60 from by
        rw [max_div_div_right (by norm_num : (0 : ℚ) ≤ 60), Nat.cast_max], ih]

theorem foldl_min_lt (c : ℕ) : ∀ (xs : List ℕ) (x : ℕ), x < c →
    xs.foldl min x < c := by
  intro xs
  induction xs with
  | nil => intro x hx; exact hx
  | cons b bs ih =>
    intro x hx
    rw [List.foldl_cons]
    exact ih _ (lt_of_le_of_lt (min_le_left _ _) hx)

theorem foldl_max_lt (c : ℕ) : ∀ (xs : List ℕ) (x : ℕ), x < c →
    (∀ y ∈ xs, y < c) → xs.foldl max x < c := by
  intro xs
  induction xs with
  | nil => intro x hx _; exact hx
  | cons b bs ih =>
    intro x hx hall
    rw [List.foldl_cons]
    exact ih _ (max_lt hx (hall b (List.mem_cons_self _ _)))
      (fun y hy => hall y (List.mem_cons_of_mem _ hy))

theorem minMealMinutes_lt (meals : List Meal) : minMealMinutes meals < 1440 := by
  unfold minMealMinutes
  cases hm : meals.map mealMinutes with
  | nil => norm_num
  | cons x xs =>
    have hx : x < 1440 := by
      have : x ∈ meals.map mealMinutes := by rw [hm]; exact List.mem_cons_self _ _
      obtain ⟨m, _, hmx⟩ := List.mem_map.mp this
      rw [← hmx]; exact mealMinutes_lt m
    exact foldl_min_lt 1440 xs x hx

theorem maxMealMinutes_lt (meals : List Meal) : maxMealMinutes meals < 1440 := by
  unfold maxMealMinutes
  cases hm : meals.map mealMinutes with
  | nil => norm_num
  | cons x xs =>
    have hmem : ∀ y ∈ x :: xs, y < 1440 := by
      intro y hy
      have : y ∈ meals.map mealMinutes := by rw [hm]; exact hy
      obtain ⟨m, _, hmy⟩ := List.mem_map.mp this
      rw [← hmy]; exact mealMinutes_lt m
    exact foldl_max_lt 1440 xs x (hmem x (List.mem_cons_self _ _))
      (fun y hy => hmem y (List.mem_cons_of_mem _ hy))

/-- `formatHour` on a minute count `n` (passed as `n / 60` fractional hours)
produces the padded `HH:MM` string of `n`. -/
theorem formatHour_minutes (n : ℕ) :
    formatHour ((n : ℚ) / 60) = fmtHM ((n / 60 : ℕ) : ℤ) ((n % 60 : ℕ) : ℤ) := by
  have hc : ((n : ℚ)) = 60 * ((n / 60 : ℕ) : ℚ) + ((n % 60 : ℕ) : ℚ) := by
    exact_mod_cast (Nat.div_add_mod n 60).symm
  have hfl : jsFloor ((n : ℚ) / 60) = ((n / 60 : ℕ) : ℤ) := by
    unfold jsFloor
    rw [Int.floor_eq_iff]
    constructor
    · rw [le_div_iff₀ (by norm_num : (0 : ℚ) < 60)]
      have h1 : ((n / 60 : ℕ) : ℚ) * 60 ≤ (n : ℚ) := by
        exact_mod_cast Nat.div_mul_le_self n 60
      exact_mod_cast h1
    · rw [div_lt_iff₀ (by norm_num : (0 : ℚ) < 60)]
      have h2 : (n : ℚ) < (((n / 60 : ℕ) : ℚ) + 1) * 60 := by
        exact_mod_cast (show n < (n / 60 + 1) * 60 by omega)
      exact_mod_cast h2
  have hrem : ((n : ℚ) / 60 - (((n / 60 : ℕ) : ℤ) : ℚ)) * 60 = (((n % 60 : ℕ) : ℤ) : ℚ) := by
    rw [Int.cast_natCast, Int.cast_natCast]
    linear_combination hc
  simp only [formatHour]
  rw [hfl, hrem, jsRound_intCast]
  rfl

/-- Parsing inverts formatting for in-range hour/minute pairs (finite check
over all 24 × 60 combinations). -/
theorem parse_fmtHM : ∀ h : ℕ, h < 24 → ∀ m : ℕ, m < 60 →
    (jsSplit (fmtHM (h : ℤ) (m : ℤ)) ':').map parseNum = [(h : ℤ), (m : ℤ)] := by decide

/-- `calculateIntermittentFasting` on two formatted `HH:MM` strings computes
the fasting-minute formula on the corresponding minute counts. -/
theorem calculateIntermittentFasting_fmt (h₁ m₁ h₂ m₂ : ℕ)
    (hh₁ : h₁ < 24) (hm₁ : m₁ < 60) (hh₂ : h₂ < 24) (hm₂ : m₂ < 60) :
    calculateIntermittentFasting ⟨fmtHM (h₁ : ℤ) (m₁ : ℤ), fmtHM (h₂ : ℤ) (m₂ : ℤ)⟩ =
      jsRound ((((if (h₁ : ℤ) * 60 + (m₁ : ℤ) < (h₂ : ℤ) * 60 + (m₂ : ℤ)
        then 24 * 60 - ((h₂ : ℤ) * 60 + (m₂ : ℤ) - ((h₁ : ℤ) * 60 + (m₁ : ℤ)))
        else (h₁ : ℤ) * 60 + (m₁ : ℤ) - ((h₂ : ℤ) * 60 + (m₂ : ℤ)) : ℤ)) : ℚ) / 60) := by
  simp only [calculateIntermittentFasting]
  rw [parse_fmtHM h₁ hh₁ m₁ hm₁, parse_fmtHM h₂ hh₂ m₂ hm₂]
  rfl

/-- C6: for every non-empty meal list, the eating window is the earliest and
latest meal time-of-day (formatted `HH:MM`), and `intermittentFastingHours`
equals `24h − (end − start)` when `end > start` and `start − end` otherwise,
rounded to whole hours. -/
theorem intermittentFasting_spec (meals : List Meal) (h : meals ≠ []) :
    calculateEatingHours meals =
      ⟨fmtHM ((minMealMinutes meals / 60 : ℕ) : ℤ) ((minMealMinutes meals % 60 : ℕ) : ℤ),
       fmtHM ((maxMealMinutes meals / 60 : ℕ) : ℤ) ((maxMealMinutes meals % 60 : ℕ) : ℤ)⟩ ∧
    calculateIntermittentFasting (calculateEatingHours meals) =
      jsRound ((fastingMinutesSpec meals : ℚ) / 60) := by
  obtain ⟨m, ms, rfl⟩ := List.exists_cons_of_ne_nil h
  have hwin : calculateEatingHours (m :: ms) =
      ⟨fmtHM ((minMealMinutes (m :: ms) / 60 : ℕ) : ℤ)
        ((minMealMinutes (m :: ms) % 60 : ℕ) : ℤ),
       fmtHM ((maxMealMinutes (m :: ms) / 60 : ℕ) : ℤ)
        ((maxMealMinutes (m :: ms) % 60 : ℕ) : ℤ)⟩ := by
    show EatingHours.mk
        (formatHour ((ms.map fractionalHour).foldl min (fractionalHour m)))
        (formatHour ((ms.map fractionalHour).foldl max (fractionalHour m))) = _
    have hmap : ms.map fractionalHour =
        (ms.map mealMinutes).map fun n : ℕ => (n : ℚ) / 60 := by
      rw [List.map_map]
      exact List.map_congr_left fun x _ => fractionalHour_eq x
    rw [hmap, fractionalHour_eq m, foldl_min_map_div, foldl_max_map_div,
      formatHour_minutes, formatHour_minutes]
    rfl
  refine ⟨hwin, ?_⟩
  rw [hwin]
  have hminlt := minMealMinutes_lt (m :: ms)
  have hmaxlt := maxMealMinutes_lt (m :: ms)
  rw [calculateIntermittentFasting_fmt (minMealMinutes (m :: ms) / 60)
    (minMealMinutes (m :: ms) % 60) (maxMealMinutes (m :: ms) / 60)
    (maxMealMinutes (m :: ms) % 60) (by omega) (by omega) (by omega) (by omega)]
  have hs : ((minMealMinutes (m :: ms) / 60 : ℕ) : ℤ) * 60 +
      ((minMealMinutes (m :: ms) % 60 : ℕ) : ℤ) = ((minMealMinutes (m :: ms) : ℕ) : ℤ) := by
    omega
  have he : ((maxMealMinutes (m :: ms) / 60 : ℕ) : ℤ) * 60 +
      ((maxMealMinutes (m :: ms) % 60 : ℕ) : ℤ) = ((maxMealMinutes (m :: ms) : ℕ) : ℤ) := by
    omega
  rw [hs, he]
  rfl

def fastingExMeal9 : Meal := { upload_time := 9 * 3600000 }

def fastingExMeal21 : Meal := { upload_time := 21 * 3600000 }

theorem intermittentFasting_spec_witness :
    ([fastingExMeal9, fastingExMeal21] ≠ ([] : List Meal)) ∧
    calculateEatingHours [fastingExMeal9, fastingExMeal21] = ⟨"09:00", "21:00"⟩ ∧
    calculateIntermittentFasting (calculateEatingHours [fastingExMeal9, fastingExMeal21]) = 12 := by
  have h := intermittentFasting_spec [fastingExMeal9, fastingExMeal21] (List.cons_ne_nil _ _)
  refine ⟨List.cons_ne_nil _ _, ?_, ?_⟩
  · rw [h.1]
    decide
  · rw [h.2]
    rw [show fastingMinutesSpec [fastingExMeal9, fastingExMeal21] = 720 from by decide]
    unfold jsRound
    rw [Int.floor_eq_iff]
    norm_num
